import Mathlib

/-!
Shallow embedding of `src/components/style/legacy.rs` (Servo's legacy
presentational-hint synthesis) and proofs of the specification claims.

The Rust function
`synthesize_presentational_hints_for_legacy_attributes(node, matching_rules_list, shareable)`
inspects one element's local tag name and typed attribute accessors, and
appends at most one synthesized `width` declaration to the caller's rule
list, clearing the `shareable` flag whenever it appends.  We model the
element as a record of its attribute snapshot, the mutable out-parameters
as explicit state threaded through a pure function, and the CSS specified
values as inductive types mirroring the Rust enums used by the source.
-/

namespace Legacy

/-- CSS floats (percentages) carry no arithmetic in this core; the value is
only passed through constructors, so we embed it as `Rat`. -/
abbrev CSSFloat := Rat

/-- App units (`servo_util::geometry::Au`): an integer count of 1/60 px. -/
abbrev Au := Int

/-- `Au::from_px`: 60 app units per device pixel. -/
def Au.from_px (px : Int) : Au := px * 60

/-- `servo_util::str::LengthOrPercentageOrAuto`, the value domain returned
by the length-attribute accessor (`AutoLpa`, `PercentageLpa`, `LengthLpa`). -/
inductive LengthOrPercentageOrAuto where
  | AutoLpa : LengthOrPercentageOrAuto
  | PercentageLpa (percentage : CSSFloat) : LengthOrPercentageOrAuto
  | LengthLpa (length : Au) : LengthOrPercentageOrAuto
  deriving Repr, DecidableEq

export LengthOrPercentageOrAuto (AutoLpa PercentageLpa LengthLpa)

/-- `specified::Length`: the specified-value length variants used by this
core (`specified::Au_` and `specified::ServoCharacterWidth`). -/
inductive SpecifiedLength where
  | Au_ (au : Au) : SpecifiedLength
  | ServoCharacterWidth (chars : Int) : SpecifiedLength
  deriving Repr, DecidableEq

/-- `specified::LengthOrPercentageOrAuto`: the specified value carried by a
`width` declaration (`LPA_Auto`, `LPA_Percentage`, `LPA_Length`). -/
inductive SpecifiedLPA where
  | LPA_Auto : SpecifiedLPA
  | LPA_Percentage (p : CSSFloat) : SpecifiedLPA
  | LPA_Length (l : SpecifiedLength) : SpecifiedLPA
  deriving Repr, DecidableEq

/-- `properties::DeclaredValue` as used here: the source only constructs
the `SpecifiedValue` arm. -/
inductive DeclaredValue where
  | SpecifiedValue (v : SpecifiedLPA) : DeclaredValue
  deriving Repr, DecidableEq

/-- `properties::PropertyDeclaration`: the source only constructs
`WidthDeclaration`. -/
inductive PropertyDeclaration where
  | WidthDeclaration (v : DeclaredValue) : PropertyDeclaration
  deriving Repr, DecidableEq

/-- `selector_matching::DeclarationBlock`: an ordered block of
declarations. -/
structure DeclarationBlock where
  declarations : List PropertyDeclaration
  deriving Repr, DecidableEq

/-- `DeclarationBlock::from_declaration`: a block holding one declaration. -/
def DeclarationBlock.from_declaration (d : PropertyDeclaration) : DeclarationBlock :=
  ⟨[d]⟩

/-- `legacy::LengthAttribute`: legacy attributes taking a length. -/
inductive LengthAttribute where
  | WidthLengthAttribute : LengthAttribute
  deriving Repr, DecidableEq

/-- `legacy::IntegerAttribute`: legacy attributes taking an integer. -/
inductive IntegerAttribute where
  | SizeIntegerAttribute : IntegerAttribute
  deriving Repr, DecidableEq

/-- The element attribute snapshot consumed by the synthesizer: its local
tag name, the typed accessor results for the `width` length attribute and
the `size` integer attribute, and the raw string value of the `type`
attribute in the null namespace (`element.get_attr(&ns!(""), &atom!("type"))`). -/
structure Element where
  local_name : String
  width_attribute : LengthOrPercentageOrAuto
  size_attribute : Option Int
  type_attribute : Option String
  deriving Repr, DecidableEq

/-- `TElement::get_local_name`. -/
def Element.get_local_name (e : Element) : String := e.local_name

/-- `TElementAttributes::get_length_attribute`. -/
def Element.get_length_attribute (e : Element) :
    LengthAttribute → LengthOrPercentageOrAuto
  | LengthAttribute.WidthLengthAttribute => e.width_attribute

/-- `TElementAttributes::get_integer_attribute`. -/
def Element.get_integer_attribute (e : Element) : IntegerAttribute → Option Int
  | IntegerAttribute.SizeIntegerAttribute => e.size_attribute

/-- `TElement::get_attr(&ns!(""), &atom!("type"))`. -/
def Element.get_attr_type (e : Element) : Option String := e.type_attribute

/-- The synthesizer
`synthesize_presentational_hints_for_legacy_attributes`, with the two
`&mut` out-parameters (`matching_rules_list`, `shareable`) threaded as
explicit state: the result is their final values. -/
def synthesize_presentational_hints_for_legacy_attributes
    (element : Element) (matching_rules_list : List DeclarationBlock)
    (shareable : Bool) : List DeclarationBlock × Bool :=
  if element.get_local_name = "td" then
    match element.get_length_attribute LengthAttribute.WidthLengthAttribute with
    | AutoLpa => (matching_rules_list, shareable)
    | PercentageLpa percentage =>
        let width_value := SpecifiedLPA.LPA_Percentage percentage
        (matching_rules_list ++ [DeclarationBlock.from_declaration
            (PropertyDeclaration.WidthDeclaration
              (DeclaredValue.SpecifiedValue width_value))],
         false)
    | LengthLpa length =>
        let width_value := SpecifiedLPA.LPA_Length (SpecifiedLength.Au_ length)
        (matching_rules_list ++ [DeclarationBlock.from_declaration
            (PropertyDeclaration.WidthDeclaration
              (DeclaredValue.SpecifiedValue width_value))],
         false)
  else if element.get_local_name = "input" then
    match element.get_integer_attribute IntegerAttribute.SizeIntegerAttribute with
    | some value =>
        if value ≠ 0 then
          let value : SpecifiedLength :=
            match element.get_attr_type with
            | some "text" | some "password" =>
                SpecifiedLength.ServoCharacterWidth value
            | _ => SpecifiedLength.Au_ (Au.from_px value)
          (matching_rules_list ++ [DeclarationBlock.from_declaration
              (PropertyDeclaration.WidthDeclaration
                (DeclaredValue.SpecifiedValue (SpecifiedLPA.LPA_Length value)))],
           false)
        else (matching_rules_list, shareable)
    | none => (matching_rules_list, shareable)
  else (matching_rules_list, shareable)

end Legacy

open Legacy

/-- Helper: every call only appends to the rules list; the appended suffix
and the resulting flag are a function of the element and the entry flag. -/
theorem synth_frame (e : Element) (l : List DeclarationBlock) (s : Bool) :
    synthesize_presentational_hints_for_legacy_attributes e l s =
      (l ++ (synthesize_presentational_hints_for_legacy_attributes e [] s).1,
       (synthesize_presentational_hints_for_legacy_attributes e [] s).2) := by
  unfold synthesize_presentational_hints_for_legacy_attributes
  repeat' split
  all_goals simp


/-- Helper shared by the `input` claims: a nonzero `size` value v appends
one `width` declaration, character widths when `type` is `text` or
`password` and v pixels otherwise, and clears the flag. -/
theorem synth_input_nonzero (e : Element) (v : Int)
    (l : List DeclarationBlock) (s : Bool)
    (htag : e.local_name = "input") (hsize : e.size_attribute = some v)
    (hv : v ≠ 0) :
    synthesize_presentational_hints_for_legacy_attributes e l s =
      (l ++ [DeclarationBlock.from_declaration (PropertyDeclaration.WidthDeclaration
        (DeclaredValue.SpecifiedValue (SpecifiedLPA.LPA_Length
          (if e.type_attribute = some "text" ∨ e.type_attribute = some "password"
            then SpecifiedLength.ServoCharacterWidth v
            else SpecifiedLength.Au_ (Au.from_px v)))))], false) := by
  unfold synthesize_presentational_hints_for_legacy_attributes
  simp only [Element.get_local_name, Element.get_integer_attribute,
    Element.get_attr_type, htag, hsize]
  simp only [hv, ne_eq, not_false_iff, if_true]
  rcases hty : e.type_attribute with _ | t
  · simp [hty]
  · by_cases h1 : t = "text"
    · simp [hty, h1]
    · by_cases h2 : t = "password"
      · simp [hty, h2]
      · rw [if_neg (show ¬ ("input" : String) = "td" by decide)]
        split <;> simp_all

/-- C1: for every `input` element whose `size` integer attribute is
`some v` with v nonzero, the synthesizer appends exactly one `width`
declaration and clears `shareable`; the specified value is "v character
widths" when the `type` attribute is `text` or `password`, and otherwise
an absolute length equal to v device pixels. -/
theorem input_size_nonzero_synthesizes_width (e : Element) (v : Int)
    (l : List DeclarationBlock) (s : Bool)
    (htag : e.local_name = "input") (hsize : e.size_attribute = some v)
    (hv : v ≠ 0) :
    synthesize_presentational_hints_for_legacy_attributes e l s =
      (l ++ [DeclarationBlock.from_declaration (PropertyDeclaration.WidthDeclaration
        (DeclaredValue.SpecifiedValue (SpecifiedLPA.LPA_Length
          (if e.type_attribute = some "text" ∨ e.type_attribute = some "password"
            then SpecifiedLength.ServoCharacterWidth v
            else SpecifiedLength.Au_ (Au.from_px v)))))], false) :=
  synth_input_nonzero e v l s htag hsize hv

/-- C1 witness: `input type="text" size="20"` yields one `width`
declaration of 20 character widths and clears the flag. -/
theorem input_size_nonzero_synthesizes_width_witness :
    synthesize_presentational_hints_for_legacy_attributes
        ⟨"input", AutoLpa, some 20, some "text"⟩ [] true =
      ([DeclarationBlock.from_declaration (PropertyDeclaration.WidthDeclaration
        (DeclaredValue.SpecifiedValue (SpecifiedLPA.LPA_Length
          (SpecifiedLength.ServoCharacterWidth 20))))], false) :=
  (input_size_nonzero_synthesizes_width ⟨"input", AutoLpa, some 20, some "text"⟩
    20 [] true rfl rfl (by decide)).trans (by decide)

/-- C2: for every `td` element whose `width` length attribute is
`PercentageLpa p`, the synthesizer appends exactly one `width` declaration
with specified value `LPA_Percentage p` and clears `shareable`. -/
theorem td_width_percentage_synthesizes_width (e : Element) (p : CSSFloat)
    (l : List DeclarationBlock) (s : Bool)
    (htag : e.local_name = "td") (hw : e.width_attribute = PercentageLpa p) :
    synthesize_presentational_hints_for_legacy_attributes e l s =
      (l ++ [DeclarationBlock.from_declaration (PropertyDeclaration.WidthDeclaration
        (DeclaredValue.SpecifiedValue (SpecifiedLPA.LPA_Percentage p)))], false) := by
  unfold synthesize_presentational_hints_for_legacy_attributes
  simp only [Element.get_local_name, Element.get_length_attribute, htag, hw]
  rw [if_pos trivial]

/-- C2 witness: `td width="50%"` yields one `width` declaration carrying
the percentage 1/2 and clears the flag. -/
theorem td_width_percentage_synthesizes_width_witness :
    synthesize_presentational_hints_for_legacy_attributes
        ⟨"td", PercentageLpa (1/2), none, none⟩ [] true =
      ([DeclarationBlock.from_declaration (PropertyDeclaration.WidthDeclaration
        (DeclaredValue.SpecifiedValue (SpecifiedLPA.LPA_Percentage (1/2))))], false) :=
  (td_width_percentage_synthesizes_width ⟨"td", PercentageLpa (1/2), none, none⟩
    (1/2) [] true rfl rfl).trans (by simp)

/-- C3: for every `td` element whose `width` length attribute is
`LengthLpa len`, the synthesizer appends exactly one `width` declaration
with specified value `LPA_Length (Au_ len)` and clears `shareable`. -/
theorem td_width_length_synthesizes_width (e : Element) (len : Au)
    (l : List DeclarationBlock) (s : Bool)
    (htag : e.local_name = "td") (hw : e.width_attribute = LengthLpa len) :
    synthesize_presentational_hints_for_legacy_attributes e l s =
      (l ++ [DeclarationBlock.from_declaration (PropertyDeclaration.WidthDeclaration
        (DeclaredValue.SpecifiedValue (SpecifiedLPA.LPA_Length
          (SpecifiedLength.Au_ len))))], false) := by
  unfold synthesize_presentational_hints_for_legacy_attributes
  simp only [Element.get_local_name, Element.get_length_attribute, htag, hw]
  rw [if_pos trivial]

/-- C3 witness: a `td` whose width attribute parsed to the absolute length
of 120 px (7200 app units) yields one such `width` declaration and clears
the flag. -/
theorem td_width_length_synthesizes_width_witness :
    synthesize_presentational_hints_for_legacy_attributes
        ⟨"td", LengthLpa 7200, none, none⟩ [] true =
      ([DeclarationBlock.from_declaration (PropertyDeclaration.WidthDeclaration
        (DeclaredValue.SpecifiedValue (SpecifiedLPA.LPA_Length
          (SpecifiedLength.Au_ 7200))))], false) :=
  (td_width_length_synthesizes_width ⟨"td", LengthLpa 7200, none, none⟩
    7200 [] true rfl rfl).trans (by decide)

/-- C4: the synthesizer never raises `shareable`: for every element, rule
list and entry flag, the exit value of the flag is at most the entry value
in the Bool order (true may drop to false; false never becomes true). -/
theorem shareable_never_raised (e : Element) (l : List DeclarationBlock)
    (s : Bool) :
    (synthesize_presentational_hints_for_legacy_attributes e l s).2 ≤ s := by
  unfold synthesize_presentational_hints_for_legacy_attributes
  repeat' split
  all_goals simp

/-- C5: for every element whose local tag name is neither `td` nor
`input`, the synthesizer appends nothing and leaves `shareable` exactly as
it was. -/
theorem other_tag_no_op (e : Element) (l : List DeclarationBlock) (s : Bool)
    (h1 : e.local_name ≠ "td") (h2 : e.local_name ≠ "input") :
    synthesize_presentational_hints_for_legacy_attributes e l s = (l, s) := by
  unfold synthesize_presentational_hints_for_legacy_attributes
  simp only [Element.get_local_name]
  rw [if_neg h1, if_neg h2]

/-- C5 witness: a `div` element is a no-op. -/
theorem other_tag_no_op_witness :
    synthesize_presentational_hints_for_legacy_attributes
        ⟨"div", AutoLpa, none, none⟩ [] true = ([], true) :=
  other_tag_no_op ⟨"div", AutoLpa, none, none⟩ [] true (by decide) (by decide)

/-- C6: for every `input` element whose `size` integer attribute is absent
or zero, the synthesizer appends no declaration and leaves `shareable`
unchanged; both inputs map to the same no-op. -/
theorem input_size_absent_or_zero_no_op (e : Element)
    (l : List DeclarationBlock) (s : Bool)
    (htag : e.local_name = "input")
    (hsize : e.size_attribute = none ∨ e.size_attribute = some 0) :
    synthesize_presentational_hints_for_legacy_attributes e l s = (l, s) := by
  unfold synthesize_presentational_hints_for_legacy_attributes
  rcases hsize with h | h
  · simp only [Element.get_local_name, Element.get_integer_attribute, htag, h]
    rw [if_pos trivial, if_neg (show ¬ ("input" : String) = "td" by decide)]
  · simp only [Element.get_local_name, Element.get_integer_attribute, htag, h]
    rw [if_pos trivial, if_neg (show ¬ ("input" : String) = "td" by decide)]
    simp

/-- C6 witness: `input size="0"` is a no-op. -/
theorem input_size_absent_or_zero_no_op_witness :
    synthesize_presentational_hints_for_legacy_attributes
        ⟨"input", AutoLpa, some 0, none⟩ [] true = ([], true) :=
  input_size_absent_or_zero_no_op ⟨"input", AutoLpa, some 0, none⟩ [] true
    rfl (Or.inr rfl)

/-- C7: for every `td` element whose `width` length attribute is
`AutoLpa`, the synthesizer appends no declaration and leaves `shareable`
unchanged. -/
theorem td_width_auto_no_op (e : Element) (l : List DeclarationBlock)
    (s : Bool)
    (htag : e.local_name = "td") (hw : e.width_attribute = AutoLpa) :
    synthesize_presentational_hints_for_legacy_attributes e l s = (l, s) := by
  unfold synthesize_presentational_hints_for_legacy_attributes
  simp only [Element.get_local_name, Element.get_length_attribute, htag, hw]
  rw [if_pos trivial]

/-- C7 witness: `td width="auto"` is a no-op. -/
theorem td_width_auto_no_op_witness :
    synthesize_presentational_hints_for_legacy_attributes
        ⟨"td", AutoLpa, none, none⟩ [] true = ([], true) :=
  td_width_auto_no_op ⟨"td", AutoLpa, none, none⟩ [] true rfl rfl

/-- C8: for every element and attribute state, one invocation appends at
most one declaration block: the output list is the input list followed by
a suffix of length at most one. -/
theorem at_most_one_block_appended (e : Element) (l : List DeclarationBlock)
    (s : Bool) :
    ∃ tail, (synthesize_presentational_hints_for_legacy_attributes e l s).1 =
      l ++ tail ∧ tail.length ≤ 1 := by
  unfold synthesize_presentational_hints_for_legacy_attributes
  repeat' split
  all_goals first
    | exact ⟨_, rfl, by simp⟩
    | exact ⟨[], by simp, by simp⟩

/-- C9: the synthesizer is a deterministic pure function of the element's
attribute snapshot: two invocations with the same element and entry flag
but any two rule lists append the identical declaration suffix and compute
the identical final flag. -/
theorem synthesizer_deterministic (e : Element)
    (l1 l2 : List DeclarationBlock) (s : Bool) :
    ((synthesize_presentational_hints_for_legacy_attributes e l1 s).1).drop
        l1.length =
      ((synthesize_presentational_hints_for_legacy_attributes e l2 s).1).drop
        l2.length ∧
    (synthesize_presentational_hints_for_legacy_attributes e l1 s).2 =
      (synthesize_presentational_hints_for_legacy_attributes e l2 s).2 := by
  rw [synth_frame e l1 s, synth_frame e l2 s]
  simp

/-- C10: for every `input` element whose `size` attribute is `some v` with
v negative and whose `type` attribute is neither `text` nor `password`,
the synthesizer still appends one `width` declaration whose specified
value is the (negative) absolute length of v device pixels and clears
`shareable`; negative sizes are not filtered out. -/
theorem input_negative_size_pixel_width (e : Element) (v : Int)
    (l : List DeclarationBlock) (s : Bool)
    (htag : e.local_name = "input") (hsize : e.size_attribute = some v)
    (hv : v < 0)
    (ht : e.type_attribute ≠ some "text")
    (hp : e.type_attribute ≠ some "password") :
    synthesize_presentational_hints_for_legacy_attributes e l s =
      (l ++ [DeclarationBlock.from_declaration (PropertyDeclaration.WidthDeclaration
        (DeclaredValue.SpecifiedValue (SpecifiedLPA.LPA_Length
          (SpecifiedLength.Au_ (Au.from_px v)))))], false) := by
  rw [synth_input_nonzero e v l s htag hsize (by omega)]
  rw [if_neg (not_or.mpr ⟨ht, hp⟩)]

/-- C10 witness: `input type="checkbox" size="-5"` yields one `width`
declaration of -5 px (-300 app units) and clears the flag. -/
theorem input_negative_size_pixel_width_witness :
    synthesize_presentational_hints_for_legacy_attributes
        ⟨"input", AutoLpa, some (-5), some "checkbox"⟩ [] true =
      ([DeclarationBlock.from_declaration (PropertyDeclaration.WidthDeclaration
        (DeclaredValue.SpecifiedValue (SpecifiedLPA.LPA_Length
          (SpecifiedLength.Au_ (-300)))))], false) :=
  (input_negative_size_pixel_width ⟨"input", AutoLpa, some (-5), some "checkbox"⟩
    (-5) [] true rfl rfl (by decide) (by decide) (by decide)).trans (by decide)
